import Mathlib

/-!
# HangSpace real-time chat fan-out and notification consolidation: a verification development

A shallow embedding of the real-time chat subsystem of the HangSpace repository:
the Socket.IO event handlers of `app.py` (connect, disconnect, join_chat,
send_message, message_read, ...) and the notification / message / status methods of
`utils/database.py` (`create_consolidated_message_notification`,
`mark_notification_as_read`, `mark_message_as_read`, `update_user_status`, ...).

Conventions of the embedding:
* Mongo ObjectIds for users, chats and socket sids are modelled as `String`
  (the code always compares their `str()` forms); notification and message `_id`s
  are modelled as `Nat` drawn from a fresh counter, standing for unique ObjectIds.
* Mongo collections are lists in insertion ("natural") order; `find_one` is
  `List.find?`, `insert_one` appends, `update_one` on a unique `_id` key is a
  pointwise map (the counters keep `_id`s unique; theorems that depend on
  uniqueness carry it as a hypothesis).
* `datetime.utcnow()` is an explicit `now : Nat` parameter.
* A Mongo write that raises (caught by the code's `try/except`, surfacing as a
  `None` return) is modelled by an explicit success flag where a claim needs it
  (`create_message`).
* Flask-SocketIO semantics: every live sid is automatically a member of the room
  named by the sid itself; `join_room` adds the sid to a named room (a set);
  `emit(..., room=r, include_self=False)` targets the members of `r` minus the
  calling sid; `emit` with no room targets the caller; `broadcast=True` targets
  every connected sid.
* `app.py` registers `send_message` and `typing` handlers twice; in Flask-SocketIO
  the later registration replaces the earlier one, so the effective handlers are
  the second versions (the `send_message` of line 1819, which emits
  `notification_updated` but no badge update).
-/

namespace HangSpace

/-! ## Data model -/

/-- A user profile document (`user_profiles` collection), restricted to the fields
the subsystem reads: `status` / `is_online` / `last_seen` written by
`update_user_status`, and `display_name` / `username` read for summary lines. -/
structure Profile where
  pid : String
  username : String
  display_name : Option String
  status : String
  is_online : Bool
  last_seen : Nat
deriving DecidableEq, Repr

/-- A chat document, restricted to its participant list (`get_chat` stringifies
the participant ObjectIds). -/
structure Chat where
  cid : String
  participants : List String
deriving DecidableEq, Repr

/-- A message document: `create_message` inserts chat id, sender, content;
`mark_message_as_read` maintains the `read_by` set via `$addToSet` (modelled as a
duplicate-free list). -/
structure Message where
  mid : Nat
  chat_id : String
  sender_id : String
  content : String
  read_by : List String
deriving DecidableEq, Repr

/-- A notification document.  The `data` subdocument's optional fields are
flattened into `Option`-typed fields: consolidated `new_message` notifications
carry `data.sender_id` / `data.message_count` / `data.latest_content`, while
`message_read` notifications (from `_create_notification`) carry
`data.reader_id` and leave the sender/count fields absent. -/
structure Notification where
  nid : Nat
  user_id : String
  ntype : String
  message : String
  dataSenderId : Option String
  dataChatId : Option String
  dataMessageCount : Option Nat
  dataLatestContent : Option String
  dataReaderId : Option String
  is_read : Bool
  created_at : Nat
  updated_at : Nat
deriving DecidableEq, Repr

/-- The document store: the four collections the subsystem touches, plus fresh-id
counters standing for ObjectId generation. -/
structure DB where
  profiles : List Profile
  chats : List Chat
  messages : List Message
  notifications : List Notification
  nextNotifId : Nat
  nextMsgId : Nat
deriving DecidableEq, Repr

/-! ## Persistence layer (`utils/database.py`) -/

/-- `get_user_profile`: `find_one` on the profile id. -/
def get_user_profile (db : DB) (pid : String) : Option Profile :=
  db.profiles.find? (fun p => p.pid == pid)

/-- The sender display name computed by `create_consolidated_message_notification`
and `handle_send_message`:
`profile.get('display_name', profile['username']) if profile else 'Unknown'`. -/
def displayNameOf (db : DB) (pid : String) : String :=
  match get_user_profile db pid with
  | some p => p.display_name.getD p.username
  | none => "Unknown"

/-- `get_chat(chat_id, user_id)`: `find_one` requiring the user to be a participant. -/
def get_chat (db : DB) (cid uid : String) : Option Chat :=
  db.chats.find? (fun c => c.cid == cid && c.participants.contains uid)

/-- `update_user_status`: `$set`s `is_online`, `last_seen` and `status` on the
profile document. -/
def update_user_status (db : DB) (pid status : String) (now : Nat) : DB :=
  { db with
    profiles := db.profiles.map (fun p =>
      if p.pid == pid then
        { p with is_online := status == "online", last_seen := now, status := status }
      else p) }

/-- `get_user_status`: the profile's `status` field, `"offline"` when the profile
is missing. -/
def get_user_status (db : DB) (pid : String) : String :=
  match get_user_profile db pid with
  | some p => p.status
  | none => "offline"

/-- `create_message`: inserts the message document (fresh `_id`, empty `read_by`)
and returns it; a raising insert (caught, returning `None`) is modelled by the
`ok` flag. -/
def create_message (db : DB) (ok : Bool) (cid sender content : String) :
    DB × Option Message :=
  if ok then
    let m : Message :=
      { mid := db.nextMsgId, chat_id := cid, sender_id := sender,
        content := content, read_by := [] }
    ({ db with messages := db.messages ++ [m], nextMsgId := db.nextMsgId + 1 }, some m)
  else (db, none)

/-- The `find_one` filter of `create_consolidated_message_notification`:
`{'user_id': receiver, 'type': 'new_message', 'is_read': False,
'data.sender_id': sender}`. -/
def matchesUnreadFrom (recv sender : String) (n : Notification) : Bool :=
  n.user_id == recv && n.ntype == "new_message" && !n.is_read &&
    n.dataSenderId == some sender

/-- The preview truncation of `create_consolidated_message_notification`:
`if len(preview) > 50: preview = preview[:47] + '...'`. -/
def truncPreview (content : String) : String :=
  if content.length > 50 then content.take 47 ++ "..." else content

/-- The read phase of `create_consolidated_message_notification`: the `find_one`
for an existing unread notification from the same sender. -/
def upsertRead (db : DB) (sender recv : String) : Option Notification :=
  db.notifications.find? (matchesUnreadFrom recv sender)

/-- The write phase of `create_consolidated_message_notification`, applied to the
result of the read phase: either `update_one` on the found document (increment
`data.message_count`, replace summary line / latest content / timestamps) or
`insert_one` of a fresh unread document with `message_count` 1.  Returns the
updated store and the record the method returns to its caller (in the update
branch the code copies the new `message`, `message_count` and `latest_content`
into the previously fetched dict, leaving its other fields as fetched). -/
def upsertWrite (db : DB) (found : Option Notification)
    (sender recv chatId content : String) (now : Nat) : DB × Notification :=
  let senderName := displayNameOf db sender
  let nmsg := senderName ++ ": " ++ truncPreview content
  match found with
  | some ex =>
    let cnt := ex.dataMessageCount.getD 1 + 1
    ({ db with
       notifications := db.notifications.map (fun n =>
         if n.nid == ex.nid then
           { n with
             message := nmsg
             dataMessageCount := some cnt
             dataLatestContent := some content
             updated_at := now }
         else n) },
     { ex with
       message := nmsg
       dataMessageCount := some cnt
       dataLatestContent := some content })
  | none =>
    let n : Notification :=
      { nid := db.nextNotifId, user_id := recv, ntype := "new_message",
        message := nmsg, dataSenderId := some sender, dataChatId := some chatId,
        dataMessageCount := some 1, dataLatestContent := some content,
        dataReaderId := none, is_read := false, created_at := now, updated_at := now }
    ({ db with
       notifications := db.notifications ++ [n]
       nextNotifId := db.nextNotifId + 1 }, n)

/-- `create_consolidated_message_notification(message_data, receiver_id)`:
a caller-side read (`find_one`) followed by a write (`update_one` / `insert_one`). -/
def create_consolidated_message_notification (db : DB)
    (sender recv chatId content : String) (now : Nat) : DB × Notification :=
  upsertWrite db (upsertRead db sender recv) sender recv chatId content now

/-- `_create_notification(user_id, type, message, data)`: unconditional
`insert_one` of an unread notification; used with types `'message_read'`,
`'friend_request'`, `'added_to_group'`, ... — never `'new_message'`. -/
def createNotification (db : DB) (uid ntype msg : String)
    (dataChatId dataReaderId : Option String) (now : Nat) : DB × Notification :=
  let n : Notification :=
    { nid := db.nextNotifId, user_id := uid, ntype := ntype, message := msg,
      dataSenderId := none, dataChatId := dataChatId, dataMessageCount := none,
      dataLatestContent := none, dataReaderId := dataReaderId,
      is_read := false, created_at := now, updated_at := now }
  ({ db with
     notifications := db.notifications ++ [n]
     nextNotifId := db.nextNotifId + 1 }, n)

/-- `mark_notification_as_read(notification_id, user_id)`: `update_one` on
`{_id, user_id}` `$set`ting `is_read`; success iff `modified_count > 0`, i.e.
iff a matching document existed and was actually unread. -/
def mark_notification_as_read (db : DB) (nid : Nat) (uid : String) : DB × Bool :=
  match db.notifications.find? (fun n => n.nid == nid && n.user_id == uid) with
  | some n =>
    if n.is_read then (db, false)
    else
      ({ db with notifications := db.notifications.map (fun x =>
           if x.nid == nid && x.user_id == uid then { x with is_read := true } else x) },
       true)
  | none => (db, false)

/-- `mark_all_notifications_as_read(user_id)`: `update_many` flipping every
unread notification of the user to read. -/
def mark_all_notifications_as_read (db : DB) (uid : String) : DB :=
  { db with notifications := db.notifications.map (fun n =>
      if n.user_id == uid && !n.is_read then { n with is_read := true } else n) }

/-- `mark_all_message_notifications_as_read(user_id, sender_id=None)`:
`update_many` on unread `'new_message'` notifications, optionally restricted to
one sender. -/
def mark_all_message_notifications_as_read (db : DB) (uid : String)
    (senderFilter : Option String) : DB :=
  let pred : Notification → Bool := fun n =>
    n.user_id == uid && n.ntype == "new_message" && !n.is_read &&
      (match senderFilter with
       | some s => n.dataSenderId == some s
       | none => true)
  { db with notifications := db.notifications.map (fun n =>
      if pred n then { n with is_read := true } else n) }

/-- `get_unread_notifications_count(user_id)`: `count_documents` over
`{user_id, is_read: False}` — all unread rows regardless of type. -/
def get_unread_notifications_count (db : DB) (uid : String) : Nat :=
  (db.notifications.filter (fun n => n.user_id == uid && !n.is_read)).length

/-- `mark_message_as_read(message_id, user_id)`: `$addToSet`s the reader into the
message's `read_by`; when the set actually grew (`modified_count > 0`) and the
reader is not the sender, inserts a `'message_read'` notification addressed to
the sender.  Returns success iff the reader was newly added. -/
def mark_message_as_read (db : DB) (mid : Nat) (uid : String) (now : Nat) :
    DB × Bool :=
  match db.messages.find? (fun m => m.mid == mid) with
  | none => (db, false)
  | some m =>
    if m.read_by.contains uid then (db, false)
    else
      let db1 := { db with messages := db.messages.map (fun x =>
        if x.mid == mid then { x with read_by := x.read_by ++ [uid] } else x) }
      if m.sender_id == uid then (db1, true)
      else
        ((createNotification db1 m.sender_id "message_read" "Your message was read"
            (some m.chat_id) (some uid) now).1, true)

/-! ## Socket layer (`app.py`) -/

/-- A target of a Flask-SocketIO `emit`: a named room (with or without
`include_self`), a `broadcast=True` emit, or the bare caller-directed emit. -/
inductive EmitTarget where
  | toRoom (r : String) (includeSelf : Bool)
  | everyone
  | toCaller
deriving DecidableEq, Repr

/-- One outbound `emit` performed by a handler. -/
structure Emit where
  event : String
  target : EmitTarget
deriving DecidableEq, Repr

/-- The server's in-memory connection state: the set of live sids, the
`connected_clients` dict (sid ↦ authenticated user id) of `app.py`, and the
`join_room` membership pairs (room name, sid). -/
structure SocketState where
  connectedSids : List String
  connected_clients : List (String × String)
  rooms : List (String × String)
deriving DecidableEq, Repr

/-- The sids that are members of room `r`: every sid is automatically in the room
named by itself, plus the explicit `join_room` memberships. -/
def roomSids (st : SocketState) (r : String) : List String :=
  st.connectedSids.filter (fun s => s == r) ++
    (st.rooms.filter (fun p => p.1 == r)).map Prod.snd

/-- The sids that receive one copy of an emit issued while handling an event from
`caller`. -/
def deliveries (st : SocketState) (caller : String) (e : Emit) : List String :=
  match e.target with
  | .toRoom r includeSelf =>
    if includeSelf then roomSids st r else (roomSids st r).filter (fun s => s != caller)
  | .everyone => st.connectedSids
  | .toCaller => [caller]

/-- All deliveries of the emits carrying a given event name. -/
def deliveriesOf (st : SocketState) (caller : String) (out : List Emit)
    (event : String) : List String :=
  (out.filter (fun e => e.event == event)).flatMap (deliveries st caller)

/-- `join_room(r)` by sid `s`: socket rooms are sets, so joining twice is the
same as joining once. -/
def joinRoom (st : SocketState) (r s : String) : SocketState :=
  if (r, s) ∈ st.rooms then st else { st with rooms := st.rooms ++ [(r, s)] }

/-- `handle_connect`: the transport registers the sid; if the session carries a
`user_profile_id`, record it in `connected_clients`, persist status `'online'`
and broadcast `user_online`.  No room other than the sid's own is joined. -/
def handle_connect (st : SocketState) (db : DB) (sid : String)
    (sessionUser : Option String) (now : Nat) : SocketState × DB × List Emit :=
  let st0 := { st with connectedSids := st.connectedSids ++ [sid] }
  match sessionUser with
  | some u =>
    ({ st0 with connected_clients := st0.connected_clients ++ [(sid, u)] },
     update_user_status db u "online" now,
     [⟨"user_online", .everyone⟩])
  | none => (st0, db, [])

/-- Look up the user of a sid in `connected_clients`. -/
def lookupClient (st : SocketState) (sid : String) : Option String :=
  (st.connected_clients.find? (fun p => p.1 == sid)).map Prod.snd

/-- `handle_disconnect`: if the sid is in `connected_clients`, persist status
`'offline'` and broadcast `user_offline` — unconditionally, with no check
whether other connections of the same user remain — then drop the entry.
The transport also removes the sid from every room. -/
def handle_disconnect (st : SocketState) (db : DB) (sid : String) (now : Nat) :
    SocketState × DB × List Emit :=
  let cleanup : SocketState → SocketState := fun s =>
    { s with
      connectedSids := s.connectedSids.filter (fun x => x != sid)
      rooms := s.rooms.filter (fun p => p.2 != sid) }
  match lookupClient st sid with
  | some u =>
    (cleanup { st with
       connected_clients := st.connected_clients.filter (fun p => p.1 != sid) },
     update_user_status db u "offline" now,
     [⟨"user_offline", .everyone⟩])
  | none => (cleanup st, db, [])

/-- `handle_join_chat`: joins the room named by the chat id (a truthy `chat_id`
and an authenticated session required); nothing else is joined. -/
def handle_join_chat (st : SocketState) (sid : String)
    (sessionUser : Option String) (chatId : Option String) : SocketState :=
  match chatId, sessionUser with
  | some cid, some _ => if cid == "" then st else joinRoom st cid sid
  | _, _ => st

/-- `handle_leave_chat`: leaves the chat room. -/
def handle_leave_chat (st : SocketState) (sid : String)
    (sessionUser : Option String) (chatId : Option String) : SocketState :=
  match chatId, sessionUser with
  | some cid, some _ =>
    if cid == "" then st
    else { st with rooms := st.rooms.filter (fun p => !(p.1 == cid && p.2 == sid)) }
  | _, _ => st

/-- The notification loop of `handle_send_message`: for every chat participant
other than the sender, run the consolidator and emit `notification_updated` to
the room named by that participant's user id. -/
def notifStep (sender chatId content : String) (now : Nat)
    (acc : DB × List Emit) (p : String) : DB × List Emit :=
  if p == sender then acc
  else
    ((create_consolidated_message_notification acc.1 sender p chatId content now).1,
     acc.2 ++ [⟨"notification_updated", .toRoom p true⟩])

def notifLoop (db : DB) (parts : List String) (sender chatId content : String)
    (now : Nat) : DB × List Emit :=
  parts.foldl (notifStep sender chatId content now) (db, [])

/-- The effective `handle_send_message` (second registration, `app.py` line 1819):
reject missing/empty `chat_id` or `message`, reject unauthenticated sessions;
persist via `create_message` — on a `None` result only a log line runs (no
`message_error` emit, which is reserved for the `except` branch); on success run
the notification loop over the chat's participants, broadcast `new_message` to
the chat room excluding the sender, and emit `new_message` to the room named by
the sender's own sid. -/
def handle_send_message (db : DB) (sid : String) (sessionUser : Option String)
    (chatId msg : Option String) (persistOk : Bool) (now : Nat) :
    DB × List Emit :=
  match chatId, msg with
  | some cid, some content =>
    if cid == "" || content == "" then (db, [])
    else
      match sessionUser with
      | none => (db, [])
      | some u =>
        let r := create_message db persistOk cid u content
        match r.2 with
        | none => (r.1, [])
        | some _ =>
          let r2 :=
            match get_chat r.1 cid u with
            | some chat => notifLoop r.1 chat.participants u cid content now
            | none => (r.1, [])
          (r2.1, r2.2 ++ [⟨"new_message", .toRoom cid false⟩,
                          ⟨"new_message", .toRoom sid true⟩])
  | _, _ => (db, [])

/-- `handle_message_read`: on a truthy `message_id` from an authenticated
session, run `mark_message_as_read`; if it reports success (the reader was newly
added), re-fetch the message and emit `message_read_receipt` to the room named by
the sender's user id — with no check that the reader differs from the sender. -/
def handle_message_read (db : DB) (sessionUser : Option String)
    (messageId : Option Nat) (now : Nat) : DB × List Emit :=
  match messageId, sessionUser with
  | some mid, some uid =>
    let r := mark_message_as_read db mid uid now
    if r.2 then
      match r.1.messages.find? (fun m => m.mid == mid) with
      | some m => (r.1, [⟨"message_read_receipt", .toRoom m.sender_id true⟩])
      | none => (r.1, [])
    else (r.1, [])
  | _, _ => (db, [])

/-! ## Derived notions used by the statements -/

/-- The empty document store (fresh deployment). -/
def emptyDB : DB :=
  { profiles := [], chats := [], messages := [], notifications := [],
    nextNotifId := 0, nextMsgId := 0 }

/-- The unread consolidated notifications a given (recipient, sender) pair owns:
exactly the documents the consolidator's `find_one` filter matches. -/
def pairUnread (db : DB) (recv sender : String) : List Notification :=
  db.notifications.filter (matchesUnreadFrom recv sender)

/-- The connections currently joined (via `join_room`) to the room named `r`. -/
def joinedMembers (st : SocketState) (r : String) : List String :=
  (st.rooms.filter (fun p => p.1 == r)).map Prod.snd

/-! ## General list lemmas -/

theorem find?_eq_head?_filter {α : Type} (p : α → Bool) (l : List α) :
    l.find? p = (l.filter p).head? := by
  induction l with
  | nil => rfl
  | cons a l ih =>
    by_cases h : p a
    · rw [List.find?_cons_of_pos _ h, List.filter_cons, if_pos h, List.head?_cons]
    · rw [List.find?_cons_of_neg _ h, List.filter_cons, if_neg h, ih]

theorem filter_map_comm {α : Type} (f : α → α) (p : α → Bool) (l : List α)
    (h : ∀ a ∈ l, p (f a) = p a) :
    (l.map f).filter p = (l.filter p).map f := by
  induction l with
  | nil => rfl
  | cons a l ih =>
    simp only [List.map_cons, List.filter_cons, h a (by simp)]
    by_cases hpa : p a
    · simp [hpa, ih (fun x hx => h x (by simp [hx]))]
    · simp [hpa, ih (fun x hx => h x (by simp [hx]))]

theorem length_filter_map_le {α : Type} (f : α → α) (p : α → Bool) (l : List α)
    (h : ∀ a ∈ l, p (f a) = true → p a = true) :
    ((l.map f).filter p).length ≤ (l.filter p).length := by
  induction l with
  | nil => simp
  | cons a l ih =>
    simp only [List.map_cons, List.filter_cons]
    by_cases hfa : p (f a)
    · rw [if_pos hfa, if_pos (h a (by simp) hfa)]
      simpa using ih (fun x hx hp => h x (by simp [hx]) hp)
    · rw [if_neg hfa]
      by_cases hpa : p a
      · rw [if_pos hpa]
        exact le_trans (ih (fun x hx hp => h x (by simp [hx]) hp)) (by simp)
      · rw [if_neg hpa]
        exact ih (fun x hx hp => h x (by simp [hx]) hp)

theorem filter_beq_of_nodup (l : List String) (hl : l.Nodup) (a : String)
    (ha : a ∈ l) : l.filter (fun x => x == a) = [a] := by
  induction l with
  | nil => cases ha
  | cons b l ih =>
    rcases List.nodup_cons.1 hl with ⟨hb, hl'⟩
    rcases List.mem_cons.1 ha with rfl | ha'
    · have hnil : l.filter (fun x => x == a) = [] :=
        List.filter_eq_nil_iff.2 (fun x hx => by
          simp only [beq_iff_eq]
          exact fun hxa => hb (hxa ▸ hx))
      simp [List.filter_cons, hnil]
    · have hba : (b == a) = false := by
        simp only [beq_eq_false_iff_ne]
        rintro rfl; exact hb ha'
      simp [List.filter_cons, hba, ih hl' ha']

/-! ## C7: persistence failure aborts silently -/

/-- C7 (counterexample): on a send whose message persistence fails
(`create_message` returns `None`), the effective handler emits nothing at all —
in particular it does not emit the `message_error` event the claim requires
(that emit lives only in the `except` branch, which a caught persistence failure
never reaches). -/
theorem c7_counterexample_no_message_error :
    (handle_send_message emptyDB "s1" (some "u1") (some "c1") (some "hi")
      false 0).2 = [] := by decide

/-- C7 (amended): when message persistence fails, the fan-out aborts entirely —
no `new_message` broadcast, no notification created, no `notification_updated`
emitted, and (contrary to the claim) no `message_error` either: the handler logs
and returns with the store unchanged and zero emits. -/
theorem send_message_persist_failure_silent
    (db : DB) (sid u cid content : String) (now : Nat)
    (hcid : cid ≠ "") (hcontent : content ≠ "") :
    handle_send_message db sid (some u) (some cid) (some content) false now
      = (db, []) := by
  simp [handle_send_message, create_message, hcid, hcontent]

/-- C7 (witness). -/
theorem send_message_persist_failure_silent_witness :
    handle_send_message emptyDB "s9" (some "u9") (some "c9") (some "hello")
      false 7 = (emptyDB, []) :=
  send_message_persist_failure_silent emptyDB "s9" "u9" "c9" "hello" 7
    (by decide) (by decide)

/-! ## C8: the consolidated summary line -/

/-- C8: every notification the consolidator creates or updates carries the
summary line `"{sender_display_name}: {truncated_preview}"`, where the preview
is the content itself when it is at most 50 characters, and otherwise a prefix
of the content with the ellipsis marker `"..."` appended, the whole preview
landing exactly on the 50-character bound. -/
theorem notification_summary_line
    (db : DB) (sender recv chatId content : String) (now : Nat)
    (p : Profile) (dname : String)
    (hp : get_user_profile db sender = some p)
    (hd : p.display_name = some dname) :
    (create_consolidated_message_notification db sender recv chatId content
        now).2.message = dname ++ ": " ++ truncPreview content ∧
    (content.length ≤ 50 → truncPreview content = content) ∧
    (50 < content.length →
      truncPreview content = content.take 47 ++ "..." ∧
      (truncPreview content).length = 50 ∧
      (∃ rest, content.data = (content.take 47).data ++ rest)) := by
  refine ⟨?_, ?_, ?_⟩
  · have hname : displayNameOf db sender = dname := by
      simp [displayNameOf, hp, hd]
    unfold create_consolidated_message_notification upsertWrite
    cases upsertRead db sender recv <;> simp [hname]
  · intro h
    simp [truncPreview, Nat.not_lt.2 h]
  · intro h
    have htr : truncPreview content = content.take 47 ++ "..." := by
      simp [truncPreview, h]
    refine ⟨htr, ?_, ?_⟩
    · rw [htr, String.length_append]
      have h47 : (content.take 47).length = 47 := by
        rw [String.take_eq]
        show (content.data.take 47).length = 47
        rw [List.length_take]
        exact Nat.min_eq_left (by exact Nat.le_of_lt (Nat.lt_of_lt_of_le (by norm_num) h))
      rw [h47]
      rfl
    · refine ⟨content.data.drop 47, ?_⟩
      rw [String.take_eq]
      exact (List.take_append_drop 47 content.data).symm

/-- The profile of user `"a"` used in concrete scenario states. -/
def aliceProfile : Profile :=
  { pid := "a", username := "al", display_name := some "Alice",
    status := "online", is_online := true, last_seen := 0 }

/-- A store holding only Alice's profile. -/
def aliceDB : DB := { emptyDB with profiles := [aliceProfile] }

/-- C8 (witness). -/
theorem notification_summary_line_witness :
    (create_consolidated_message_notification aliceDB
        "a" "b" "c1" "hi" 0).2.message = "Alice" ++ ": " ++ truncPreview "hi" ∧
    ("hi".length ≤ 50 → truncPreview "hi" = "hi") ∧
    (50 < "hi".length →
      truncPreview "hi" = "hi".take 47 ++ "..." ∧
      (truncPreview "hi").length = 50 ∧
      (∃ rest, "hi".data = ("hi".take 47).data ++ rest)) :=
  notification_summary_line aliceDB "a" "b" "c1" "hi" 0 aliceProfile "Alice"
    (by decide) rfl

/-! ## C9: the upsert is a caller-side read-then-write and can race -/

/-- The interleaving of two near-simultaneous consolidator calls for the same
(sender `"a"`, recipient `"b"`) pair in which both `find_one` reads happen
before either write: both reads see no existing unread notification, so both
writes insert. -/
def racedStore : DB :=
  let r1 := upsertRead emptyDB "a" "b"
  let r2 := upsertRead emptyDB "a" "b"
  let s1 := (upsertWrite emptyDB r1 "a" "b" "c1" "hi" 1).1
  (upsertWrite s1 r2 "a" "b" "c1" "yo" 2).1

/-- C9 (counterexample): that interleaving leaves two separate unread
consolidated notification rows for the (recipient `"b"`, sender `"a"`) pair —
the claim's "one unread notification row, never two" fails. -/
theorem c9_counterexample_two_unread_rows :
    (pairUnread racedStore "b" "a").length = 2 := by decide

/-- C9 (amended): `create_consolidated_message_notification` is implemented as a
caller-side read (`find_one`) followed by a dependent write
(`update_one`/`insert_one`) — not an atomic find-and-update-or-insert — and the
interleaving of two calls for the same pair in which both reads precede both
writes produces two separate unread rows. -/
theorem upsert_is_read_then_write
    (db : DB) (sender recv chatId content : String) (now : Nat) :
    create_consolidated_message_notification db sender recv chatId content now
      = upsertWrite db (upsertRead db sender recv) sender recv chatId content
          now ∧
    (pairUnread racedStore "b" "a").length = 2 :=
  ⟨rfl, by decide⟩

/-! ## C5: disconnect and persisted presence -/

/-- The run refuting C5: user `"a"` opens two connections (`"s1"`, `"s2"`), then
`"s1"` disconnects.  `handle_disconnect` never checks for remaining connections. -/
def twoTabRun : SocketState × DB × List Emit :=
  let r1 := handle_connect ⟨[], [], []⟩ aliceDB "s1" (some "a") 1
  let r2 := handle_connect r1.1 r1.2.1 "s2" (some "a") 2
  handle_disconnect r2.1 r2.2.1 "s1" 3

/-- C5 (counterexample): after the run, the user's other connection `"s2"` is
still registered in `connected_clients`, yet the persisted status has
transitioned to `"offline"` and `user_offline` was broadcast — the claim's
"the status stays 'online' while another connection remains" fails, as does
"broadcasts user_offline only when ... last active connection". -/
theorem c5_counterexample_offline_with_live_connection :
    lookupClient twoTabRun.1 "s2" = some "a" ∧
    get_user_status twoTabRun.2.1 "a" = "offline" ∧
    twoTabRun.2.2 = [⟨"user_offline", .everyone⟩] := by decide

/-- C5 (amended): a disconnect of any connection registered in
`connected_clients` unconditionally transitions the user's persisted status to
`"offline"` (recording a last-seen timestamp) and broadcasts `user_offline`,
regardless of whether other connections of the same user remain; the persisted
status therefore tracks the most recent connect/disconnect event of the user,
not the existence of an active connection. -/
theorem disconnect_unconditionally_offline
    (st : SocketState) (db : DB) (sid u : String) (now : Nat)
    (h : lookupClient st sid = some u)
    (p : Profile) (hp : get_user_profile db u = some p) :
    get_user_status (handle_disconnect st db sid now).2.1 u = "offline" ∧
    (∃ q, get_user_profile (handle_disconnect st db sid now).2.1 u = some q ∧
      q.status = "offline" ∧ q.is_online = false ∧ q.last_seen = now) ∧
    (handle_disconnect st db sid now).2.2 = [⟨"user_offline", .everyone⟩] ∧
    lookupClient (handle_disconnect st db sid now).1 sid = none := by
  have hdb : (handle_disconnect st db sid now).2.1
      = update_user_status db u "offline" now := by
    simp [handle_disconnect, h]
  have hpid : (p.pid == u) = true := by
    have := List.find?_some hp
    simpa [get_user_profile] using this
  have hfind : get_user_profile (update_user_status db u "offline" now) u
      = some { p with is_online := false, last_seen := now, status := "offline" } := by
    unfold get_user_profile update_user_status
    rw [List.find?_map]
    have hcomp : ((fun q : Profile => q.pid == u) ∘ fun q : Profile =>
        if q.pid == u then
          { q with
            is_online := ("offline" == "online")
            last_seen := now
            status := "offline" }
        else q) = fun q : Profile => q.pid == u := by
      funext q
      by_cases hq : q.pid == u <;> simp [Function.comp, hq]
    rw [hcomp]
    have heq : db.profiles.find? (fun q : Profile => q.pid == u) = some p := hp
    rw [heq]
    have hpu : p.pid = u := by simpa using hpid
    simp [hpu, show ("offline" == "online") = false from rfl]
  refine ⟨?_, ⟨_, by rw [hdb]; exact hfind, rfl, rfl, rfl⟩, ?_, ?_⟩
  · rw [hdb]
    simp [get_user_status, hfind]
  · simp [handle_disconnect, h]
  · have hcc : (handle_disconnect st db sid now).1.connected_clients
        = st.connected_clients.filter (fun q => q.1 != sid) := by
      simp [handle_disconnect, h]
    have hnone : (st.connected_clients.filter (fun q => q.1 != sid)).find?
        (fun q => q.1 == sid) = none := by
      apply List.find?_eq_none.2
      intro x hx
      have hkeep := List.of_mem_filter hx
      simp only [bne_iff_ne, ne_eq] at hkeep
      simp [hkeep]
    simp only [lookupClient, hcc, hnone]
    rfl

/-- C5 (witness). -/
theorem disconnect_unconditionally_offline_witness :
    get_user_status (handle_disconnect ⟨["s1"], [("s1", "a")], []⟩ aliceDB
        "s1" 9).2.1 "a" = "offline" ∧
    (∃ q, get_user_profile (handle_disconnect ⟨["s1"], [("s1", "a")], []⟩
        aliceDB "s1" 9).2.1 "a" = some q ∧
      q.status = "offline" ∧ q.is_online = false ∧ q.last_seen = 9) ∧
    (handle_disconnect ⟨["s1"], [("s1", "a")], []⟩ aliceDB "s1" 9).2.2
      = [⟨"user_offline", .everyone⟩] ∧
    lookupClient (handle_disconnect ⟨["s1"], [("s1", "a")], []⟩ aliceDB
        "s1" 9).1 "s1" = none :=
  disconnect_unconditionally_offline ⟨["s1"], [("s1", "a")], []⟩ aliceDB
    "s1" "a" 9 (by decide) aliceProfile (by decide)

/-! ## C6: read receipts -/

/-- `find?` by message id commutes with an id-preserving rewrite of the store. -/
theorem find?_map_mid (l : List Message) (mid : Nat) (f : Message → Message)
    (hf : ∀ x, (f x).mid = x.mid) :
    (l.map f).find? (fun x => x.mid == mid)
      = (l.find? (fun x => x.mid == mid)).map f := by
  rw [List.find?_map]
  have hpred : ((fun x : Message => x.mid == mid) ∘ f)
      = (fun x : Message => x.mid == mid) := by
    funext x
    simp [Function.comp, hf]
  rw [hpred]

/-- The message store used by the C6 counterexample: one message from `"a"`
that nobody has read yet. -/
def selfReadDB : DB :=
  { emptyDB with
    messages := [{ mid := 1, chat_id := "c1", sender_id := "a",
                   content := "hi", read_by := [] }] }

/-- C6 (counterexample): the sender `"a"` marks their own message read; the
reader is newly added, so `handle_message_read` emits `message_read_receipt`
(to the room keyed by the sender's id) even though the reader is the sender —
the claim's "no event is emitted when ... the reader is the sender" fails.
(The reader-is-not-sender check in `mark_message_as_read` guards only the
persisted notification, not this socket emit.) -/
theorem c6_counterexample_self_read_emits_receipt :
    ((handle_message_read selfReadDB (some "a") (some 1) 0).2.filter
      (fun e => e.event == "message_read_receipt")).length = 1 := by decide

/-- C6 (amended): the reader is added to the message's read-by set as an
idempotent set-add, and `message_read_receipt` is emitted to the sender's room
if and only if the reader was newly added — including when the reader is the
sender (only the persisted `message_read` notification is suppressed for
self-reads); marking the same message read twice by the same reader emits the
receipt exactly once. -/
theorem message_read_receipt_iff_newly_added
    (db : DB) (mid : Nat) (m : Message) (reader : String) (now now2 : Nat)
    (hm : db.messages.find? (fun x => x.mid == mid) = some m) :
    ((handle_message_read db (some reader) (some mid) now).1.messages.find?
        (fun x => x.mid == mid)
      = some (if m.read_by.contains reader then m
              else { m with read_by := m.read_by ++ [reader] })) ∧
    ((handle_message_read db (some reader) (some mid) now).2.filter
        (fun e => e.event == "message_read_receipt")
      = if m.read_by.contains reader then []
        else [⟨"message_read_receipt", .toRoom m.sender_id true⟩]) ∧
    (handle_message_read
        (handle_message_read db (some reader) (some mid) now).1
        (some reader) (some mid) now2).2 = [] := by
  have hmid : (m.mid == mid) = true := by
    have hsome := List.find?_some hm
    simpa using hsome
  by_cases h : m.read_by.contains reader
  · have hmem : reader ∈ m.read_by := by simpa using h
    have hmark : ∀ t, mark_message_as_read db mid reader t = (db, false) := by
      intro t
      unfold mark_message_as_read
      rw [hm]
      dsimp only
      simp [hmem]
    have hr : ∀ t, handle_message_read db (some reader) (some mid) t
        = (db, []) := by
      intro t
      unfold handle_message_read
      dsimp only
      rw [hmark t]
      simp
    refine ⟨?_, ?_, ?_⟩
    · rw [hr now]
      simp [hm, hmem]
    · rw [hr now]
      simp [hmem]
    · rw [hr now, hr now2]
  · have hmem : reader ∉ m.read_by := by simpa using h
    set f : Message → Message := fun x =>
      if x.mid == mid then { x with read_by := x.read_by ++ [reader] } else x
      with hf
    have hffix : ∀ x, (f x).mid = x.mid := by
      intro x
      by_cases hx : (x.mid == mid) = true
      · have hx' : x.mid = mid := by simpa using hx
        simp [hf, hx']
      · have hx' : ¬x.mid = mid := by simpa using hx
        simp [hf, hx']
    have hmid' : m.mid = mid := by simpa using hmid
    have hfm : f m = { m with read_by := m.read_by ++ [reader] } := by
      simp [hf, hmid']
    have hstep : ∀ t, mark_message_as_read db mid reader t
        = (if m.sender_id == reader then { db with messages := db.messages.map f }
           else
             (createNotification { db with messages := db.messages.map f }
               m.sender_id "message_read" "Your message was read"
               (some m.chat_id) (some reader) t).1, true) := by
      intro t
      unfold mark_message_as_read
      rw [hm]
      dsimp only
      simp only [h, Bool.false_eq_true, if_false, ← hf]
      by_cases hs : (m.sender_id == reader) = true <;> simp [hs]
    have hmsgs : ∀ t, (mark_message_as_read db mid reader t).1.messages
        = db.messages.map f := by
      intro t
      rw [hstep t]
      by_cases hs : (m.sender_id == reader) = true <;>
        simp [hs, createNotification]
    have hok : ∀ t, (mark_message_as_read db mid reader t).2 = true := by
      intro t
      rw [hstep t]
    have hfind : ∀ t, (mark_message_as_read db mid reader t).1.messages.find?
        (fun x => x.mid == mid) = some (f m) := by
      intro t
      rw [hmsgs t, find?_map_mid _ _ _ hffix, hm]
      rfl
    have hout : ∀ t, handle_message_read db (some reader) (some mid) t
        = ((mark_message_as_read db mid reader t).1,
           [⟨"message_read_receipt", .toRoom (f m).sender_id true⟩]) := by
      intro t
      unfold handle_message_read
      dsimp only
      rw [hok t, hfind t]
      simp
    have hsender : (f m).sender_id = m.sender_id := by simp [hfm]
    refine ⟨?_, ?_, ?_⟩
    · rw [hout now, hfind now, hfm]
      simp [hmem]
    · rw [hout now]
      simp [hmem, hsender]
    · rw [hout now]
      have hmark2 : ∀ db' : DB,
          db'.messages.find? (fun x => x.mid == mid) = some (f m) →
          mark_message_as_read db' mid reader now2 = (db', false) := by
        intro db' hdbf
        unfold mark_message_as_read
        rw [hdbf]
        dsimp only
        simp [hfm]
      unfold handle_message_read
      dsimp only
      rw [hmark2 _ (hfind now)]
      simp

/-- C6 (witness): a fresh read by a non-sender adds the reader and emits the
receipt once; the repeated read emits nothing. -/
theorem message_read_receipt_iff_newly_added_witness :
    ((handle_message_read selfReadDB (some "b") (some 1) 4).1.messages.find?
        (fun x => x.mid == 1)
      = some (if ([] : List String).contains "b" then
                { mid := 1, chat_id := "c1", sender_id := "a",
                  content := "hi", read_by := [] }
              else { mid := 1, chat_id := "c1", sender_id := "a",
                     content := "hi", read_by := [] ++ ["b"] })) ∧
    ((handle_message_read selfReadDB (some "b") (some 1) 4).2.filter
        (fun e => e.event == "message_read_receipt")
      = if ([] : List String).contains "b" then []
        else [⟨"message_read_receipt", .toRoom "a" true⟩]) ∧
    (handle_message_read
        (handle_message_read selfReadDB (some "b") (some 1) 4).1
        (some "b") (some 1) 5).2 = [] :=
  message_read_receipt_iff_newly_added selfReadDB 1
    { mid := 1, chat_id := "c1", sender_id := "a", content := "hi",
      read_by := [] } "b" 4 5 (by decide)

/-! ## C3: identity channels are never joined -/

/-- The profile of user `"b"` used in concrete scenario states. -/
def bobProfile : Profile :=
  { pid := "b", username := "bo", display_name := some "Bob",
    status := "online", is_online := true, last_seen := 0 }

/-- A store with users `"a"`, `"b"` and one chat `"c1"` between them. -/
def chatDB : DB :=
  { emptyDB with
    profiles := [aliceProfile, bobProfile]
    chats := [{ cid := "c1", participants := ["a", "b"] }] }

/-- The states reached through the handlers alone: `"a"` connects on `"s1"`,
`"b"` connects on `"s2"`, both join chat room `"c1"`.  `handle_connect` and
`handle_join_chat` are the only sources of room membership, and neither ever
joins a connection to the room named by its user id. -/
def c3Step1 : SocketState × DB × List Emit :=
  handle_connect ⟨[], [], []⟩ chatDB "s1" (some "a") 1

def c3Step2 : SocketState × DB × List Emit :=
  handle_connect c3Step1.1 c3Step1.2.1 "s2" (some "b") 2

def c3Sock : SocketState :=
  handle_join_chat (handle_join_chat c3Step2.1 "s1" (some "a") (some "c1"))
    "s2" (some "b") (some "c1")

/-- The send of `"hello"` by `"a"` from connection `"s1"` in that state. -/
def c3Send : DB × List Emit :=
  handle_send_message c3Step2.2.1 "s1" (some "a") (some "c1") (some "hello")
    true 5

/-- C3: in the reached state, participant `"b"` has the authenticated connection
`"s2"`, and the send handler does emit one `notification_updated` to the room
keyed by `"b"` — but no connection ever joined a room keyed by a user id
(`handle_connect` joins nothing, `handle_join_chat` joins only chat rooms), so
that emit is delivered to zero connections, while the `new_message` emits of the
very same send are delivered normally.  The claim "every authenticated
connection for a user is reachable by that user's id as a room key" fails on
the code; the emit sites expect it to hold, so the missing
`join_room(user_profile_id)` on connect is a code bug. -/
theorem c3_notification_updated_delivered_to_nobody :
    lookupClient c3Sock "s2" = some "b" ∧
    (c3Send.2.filter (fun e => e.event == "notification_updated")).length = 1 ∧
    deliveriesOf c3Sock "s1" c3Send.2 "notification_updated" = [] ∧
    deliveriesOf c3Sock "s1" c3Send.2 "new_message" = ["s2", "s1"] := by
  decide

/-! ## C10: read receipts feed the sender's global badge -/

/-- C10: when `mark_message_as_read` newly adds a reader other than the sender,
it appends one persisted unread `'message_read'` notification addressed to the
sender; `get_unread_notifications_count` counts unread rows of every type, so
the sender's global badge value grows by exactly one, and marking that row read
restores the previous value. -/
theorem read_receipt_increments_sender_badge
    (db : DB) (mid : Nat) (m : Message) (reader : String) (now : Nat)
    (hm : db.messages.find? (fun x => x.mid == mid) = some m)
    (hfresh : reader ∉ m.read_by)
    (hns : (m.sender_id == reader) = false)
    (hbound : ∀ n ∈ db.notifications, n.nid < db.nextNotifId) :
    (mark_message_as_read db mid reader now).2 = true ∧
    ∃ row : Notification,
      (mark_message_as_read db mid reader now).1.notifications
        = db.notifications ++ [row] ∧
      row.ntype = "message_read" ∧ row.user_id = m.sender_id ∧
      row.is_read = false ∧ row.dataReaderId = some reader ∧
      get_unread_notifications_count (mark_message_as_read db mid reader now).1
          m.sender_id
        = get_unread_notifications_count db m.sender_id + 1 ∧
      get_unread_notifications_count
          (mark_notification_as_read (mark_message_as_read db mid reader now).1
            row.nid m.sender_id).1 m.sender_id
        = get_unread_notifications_count db m.sender_id := by
  have hcont : m.read_by.contains reader = false := by
    simpa using hfresh
  set row : Notification :=
    { nid := db.nextNotifId, user_id := m.sender_id, ntype := "message_read",
      message := "Your message was read", dataSenderId := none,
      dataChatId := some m.chat_id, dataMessageCount := none,
      dataLatestContent := none, dataReaderId := some reader,
      is_read := false, created_at := now, updated_at := now } with hrow
  have hmark : (mark_message_as_read db mid reader now).2 = true ∧
      (mark_message_as_read db mid reader now).1.notifications
        = db.notifications ++ [row] := by
    unfold mark_message_as_read
    rw [hm]
    dsimp only
    rw [hcont]
    simp [hns, createNotification, hrow]
  refine ⟨hmark.1, row, hmark.2, rfl, rfl, rfl, rfl, ?_, ?_⟩
  · rw [get_unread_notifications_count, hmark.2, List.filter_append]
    have hrowkeep : (List.filter
        (fun n => n.user_id == m.sender_id && !n.is_read) [row]) = [row] := by
      simp [hrow]
    rw [hrowkeep, List.length_append]
    rfl
  · have hfindrow : ((mark_message_as_read db mid reader now).1.notifications.find?
        (fun n => n.nid == row.nid && n.user_id == m.sender_id)) = some row := by
      rw [hmark.2]
      have hnone : (db.notifications.find?
          (fun n => n.nid == row.nid && n.user_id == m.sender_id)) = none := by
        apply List.find?_eq_none.2
        intro n hn
        have hlt := hbound n hn
        have : (n.nid == row.nid) = false := by
          simp only [hrow]
          exact beq_eq_false_iff_ne.2 (Nat.ne_of_lt hlt)
        simp [this]
      simp [List.find?_append, hnone]
    have hnots : (mark_message_as_read db mid reader now).1.notifications.map
        (fun x => if x.nid == row.nid && x.user_id == m.sender_id then
          { x with is_read := true } else x)
        = db.notifications ++ [{ row with is_read := true }] := by
      rw [hmark.2, List.map_append]
      have hold : db.notifications.map
          (fun x => if x.nid == row.nid && x.user_id == m.sender_id then
            { x with is_read := true } else x) = db.notifications := by
        have hptwise : ∀ n ∈ db.notifications,
            (if n.nid == row.nid && n.user_id == m.sender_id then
              { n with is_read := true } else n) = n := by
          intro n hn
          have hlt := hbound n hn
          have hne : (n.nid == row.nid) = false := by
            simp only [hrow]
            exact beq_eq_false_iff_ne.2 (Nat.ne_of_lt hlt)
          simp [hne]
        rw [List.map_congr_left hptwise, List.map_id']
      rw [hold]
      simp
    have hnots2 : (mark_message_as_read db mid reader now).1.notifications.map
        (fun x => if x.nid == db.nextNotifId && x.user_id == m.sender_id then
          { x with is_read := true } else x)
        = db.notifications ++ [{ row with is_read := true }] := hnots
    have hres : mark_notification_as_read
        (mark_message_as_read db mid reader now).1 row.nid m.sender_id
        = ({ (mark_message_as_read db mid reader now).1 with
             notifications := db.notifications ++ [{ row with is_read := true }] },
           true) := by
      unfold mark_notification_as_read
      rw [hfindrow]
      dsimp only
      rw [if_neg Bool.false_ne_true, hnots2]
    rw [hres]
    rw [get_unread_notifications_count]
    dsimp only
    rw [List.filter_append]
    have hdropped : List.filter
        (fun n => n.user_id == m.sender_id && !n.is_read)
        [{ row with is_read := true }] = [] := by
      simp
    rw [hdropped]
    simp [get_unread_notifications_count]

/-- C10 (witness): user `"b"` reads message 1 from `"a"`; `"a"`'s badge goes
from 0 to 1 and back to 0 after the row is marked read. -/
theorem read_receipt_increments_sender_badge_witness :
    (0 : Nat) < 1 ∧
    (mark_message_as_read selfReadDB 1 "b" 4).2 = true ∧
    get_unread_notifications_count (mark_message_as_read selfReadDB 1 "b" 4).1
      "a" = 1 := by
  have h := read_receipt_increments_sender_badge selfReadDB 1
    { mid := 1, chat_id := "c1", sender_id := "a", content := "hi",
      read_by := [] } "b" 4 (by decide) (by decide) (by decide)
    (by intro n hn; cases hn)
  refine ⟨Nat.zero_lt_one, h.1, ?_⟩
  obtain ⟨-, row, -, -, -, -, -, hcount, -⟩ := h
  simpa [get_unread_notifications_count, selfReadDB, emptyDB] using hcount

/-! ## C2/C4: the consolidation invariant

The repository's operations that mutate the `notifications` collection:
the consolidator upsert (`create_consolidated_message_notification`, also
reached through `create_message_notification`), the three mark-read variants,
`_create_notification` (whose call sites use the types `'message_read'`,
`'friend_request'`, `'friend_request_accepted'`, `'added_to_group'`,
`'removed_from_group'`, `'user_left_group'`, `'group_name_updated'` — never
`'new_message'`), and the `delete_many` cleanups. -/
inductive NotifOp where
  | upsert (sender recv chatId content : String) (now : Nat)
  | markRead (nid : Nat) (uid : String)
  | markAllRead (uid : String)
  | markAllMessageRead (uid : String) (senderFilter : Option String)
  | createOther (uid ntype msg : String)
       (dataChatId dataReaderId : Option String) (now : Nat)
  | cleanup (p : Notification → Bool)

/-- Interpretation of one notification-store operation. -/
def applyOp (db : DB) : NotifOp → DB
  | .upsert sender recv chatId content now =>
    (create_consolidated_message_notification db sender recv chatId content now).1
  | .markRead nid uid => (mark_notification_as_read db nid uid).1
  | .markAllRead uid => mark_all_notifications_as_read db uid
  | .markAllMessageRead uid senderFilter =>
    mark_all_message_notifications_as_read db uid senderFilter
  | .createOther uid ntype msg dataChatId dataReaderId now =>
    (createNotification db uid ntype msg dataChatId dataReaderId now).1
  | .cleanup p => { db with notifications := db.notifications.filter (fun n => !(p n)) }

/-- The constraint the repository's call sites obey: `_create_notification` is
never invoked with type `'new_message'`. -/
def opOK : NotifOp → Prop
  | .createOther _ ntype _ _ _ _ => ntype ≠ "new_message"
  | _ => True

instance (op : NotifOp) : Decidable (opOK op) := by
  cases op <;> (unfold opOK; infer_instance)

/-- A notification store reached from a fresh deployment through a trace of
store operations. -/
def runOps (ops : List NotifOp) : DB :=
  ops.foldl applyOp emptyDB

/-- A run of consolidator calls from `sender` to `recv` (chat id, content,
timestamp each time). -/
def applyUpserts (sender recv : String) (ms : List (String × String × Nat))
    (db : DB) : DB :=
  ms.foldl (fun d cm =>
    (create_consolidated_message_notification d sender recv cm.1 cm.2.1 cm.2.2).1) db

/-- The at-most-one-unread-per-pair invariant. -/
def Inv (db : DB) : Prop :=
  ∀ r b, (pairUnread db r b).length ≤ 1

/-- Update branch of the upsert: the whole store is rewritten pointwise, and
the rewrite does not touch any field the pair filters inspect. -/
theorem upsert_found_pairUnread (db : DB) (sender recv chatId content : String)
    (now : Nat) (ex : Notification)
    (hex : upsertRead db sender recv = some ex) (r' b' : String) :
    pairUnread
      (create_consolidated_message_notification db sender recv chatId content
        now).1 r' b'
      = (pairUnread db r' b').map (fun n =>
          if n.nid == ex.nid then
            { n with
              message := displayNameOf db sender ++ ": " ++ truncPreview content
              dataMessageCount := some (ex.dataMessageCount.getD 1 + 1)
              dataLatestContent := some content
              updated_at := now }
          else n) := by
  unfold create_consolidated_message_notification upsertWrite
  rw [hex]
  dsimp only
  unfold pairUnread
  dsimp only
  exact filter_map_comm _ _ _ (fun n _ => by
    by_cases h : (n.nid == ex.nid) = true <;> simp [matchesUnreadFrom, h])

/-- The document the insert branch of the upsert creates. -/
def freshNotif (db : DB) (sender recv chatId content : String) (now : Nat) :
    Notification :=
  { nid := db.nextNotifId, user_id := recv, ntype := "new_message",
    message := displayNameOf db sender ++ ": " ++ truncPreview content,
    dataSenderId := some sender, dataChatId := some chatId,
    dataMessageCount := some 1, dataLatestContent := some content,
    dataReaderId := none, is_read := false, created_at := now,
    updated_at := now }

/-- Insert branch of the upsert: the new document is appended. -/
theorem upsert_none_notifications (db : DB)
    (sender recv chatId content : String) (now : Nat)
    (hnone : upsertRead db sender recv = none) :
    (create_consolidated_message_notification db sender recv chatId content
        now).1.notifications
      = db.notifications ++ [freshNotif db sender recv chatId content now] := by
  unfold create_consolidated_message_notification upsertWrite freshNotif
  rw [hnone]

/-- The freshly inserted document matches exactly its own pair filter. -/
theorem matches_new_doc (db : DB) (sender recv chatId content : String)
    (now : Nat) (r' b' : String) :
    matchesUnreadFrom r' b' (freshNotif db sender recv chatId content now)
      = ((recv == r') && (sender == b')) := by
  simp only [matchesUnreadFrom, freshNotif]
  by_cases h1 : recv = r' <;> by_cases h2 : sender = b' <;> simp [h1, h2]

/-- A pointwise read-flip can only shrink a pair's unread list. -/
theorem flip_pointwise (r b : String) (cond : Notification → Bool)
    (n : Notification) :
    matchesUnreadFrom r b (if cond n then { n with is_read := true } else n)
        = true →
      matchesUnreadFrom r b n = true := by
  by_cases h : cond n <;> simp [matchesUnreadFrom, h]

/-- Every operation of the repository preserves the at-most-one-unread-per-pair
invariant — sequentially. -/
theorem applyOp_preserves_inv (db : DB) (op : NotifOp) (hok : opOK op)
    (hinv : Inv db) : Inv (applyOp db op) := by
  cases op with
  | upsert sender recv chatId content now =>
    intro r' b'
    cases hex : upsertRead db sender recv with
    | some ex =>
      show (pairUnread
        (create_consolidated_message_notification db sender recv chatId content
          now).1 r' b').length ≤ 1
      rw [upsert_found_pairUnread db sender recv chatId content now ex hex r' b',
        List.length_map]
      exact hinv r' b'
    | none =>
      have hnil : db.notifications.filter (matchesUnreadFrom recv sender)
          = [] := by
        apply List.filter_eq_nil_iff.2
        intro n hn
        have hq := List.find?_eq_none.1 hex n hn
        simpa [upsertRead] using hq
      show (pairUnread
        (create_consolidated_message_notification db sender recv chatId content
          now).1 r' b').length ≤ 1
      unfold pairUnread
      rw [upsert_none_notifications db sender recv chatId content now hex,
        List.filter_append, List.length_append]
      by_cases h1 : recv = r'
      · by_cases h2 : sender = b'
        · subst h1
          subst h2
          rw [hnil]
          simp [matches_new_doc]
        · have hq : matchesUnreadFrom r' b'
              (freshNotif db sender recv chatId content now) = false := by
            rw [matches_new_doc]
            simp [h2]
          simp only [List.filter_cons, hq, Bool.false_eq_true, if_false,
            List.filter_nil, List.length_nil, Nat.add_zero]
          exact hinv r' b'
      · have hq : matchesUnreadFrom r' b'
            (freshNotif db sender recv chatId content now) = false := by
          rw [matches_new_doc]
          simp [h1]
        simp only [List.filter_cons, hq, Bool.false_eq_true, if_false,
          List.filter_nil, List.length_nil, Nat.add_zero]
        exact hinv r' b'
  | markRead nid uid =>
    intro r' b'
    unfold applyOp mark_notification_as_read
    dsimp only
    cases hf : db.notifications.find?
        (fun n => n.nid == nid && n.user_id == uid) with
    | none =>
      exact hinv r' b'
    | some n =>
      dsimp only
      by_cases hr : n.is_read = true
      · rw [if_pos hr]
        exact hinv r' b'
      · rw [if_neg hr]
        unfold pairUnread
        dsimp only
        exact le_trans
          (length_filter_map_le _ _ _ (fun x _ =>
            flip_pointwise r' b' (fun y => y.nid == nid && y.user_id == uid) x))
          (hinv r' b')
  | markAllRead uid =>
    intro r' b'
    unfold applyOp mark_all_notifications_as_read
    unfold pairUnread
    dsimp only
    exact le_trans
      (length_filter_map_le _ _ _ (fun x _ =>
        flip_pointwise r' b' (fun y => y.user_id == uid && !y.is_read) x))
      (hinv r' b')
  | markAllMessageRead uid senderFilter =>
    intro r' b'
    cases senderFilter with
    | none =>
      unfold applyOp mark_all_message_notifications_as_read
      unfold pairUnread
      dsimp only
      exact le_trans
        (length_filter_map_le _ _ _ (fun x _ =>
          flip_pointwise r' b'
            (fun y => y.user_id == uid && y.ntype == "new_message" &&
              !y.is_read && true) x))
        (hinv r' b')
    | some s =>
      unfold applyOp mark_all_message_notifications_as_read
      unfold pairUnread
      dsimp only
      exact le_trans
        (length_filter_map_le _ _ _ (fun x _ =>
          flip_pointwise r' b'
            (fun y => y.user_id == uid && y.ntype == "new_message" &&
              !y.is_read && (y.dataSenderId == some s)) x))
        (hinv r' b')
  | createOther uid ntype msg dataChatId dataReaderId now =>
    intro r' b'
    unfold applyOp createNotification
    unfold pairUnread
    dsimp only
    rw [List.filter_append, List.length_append]
    have hne : (ntype == "new_message") = false :=
      beq_eq_false_iff_ne.2 hok
    have hq : matchesUnreadFrom r' b'
        { nid := db.nextNotifId, user_id := uid, ntype := ntype, message := msg,
          dataSenderId := none, dataChatId := dataChatId,
          dataMessageCount := none, dataLatestContent := none,
          dataReaderId := dataReaderId, is_read := false, created_at := now,
          updated_at := now } = false := by
      simp [matchesUnreadFrom, hne]
    simp only [List.filter_cons, hq, Bool.false_eq_true, if_false,
      List.filter_nil, List.length_nil, Nat.add_zero]
    exact hinv r' b'
  | cleanup p =>
    intro r' b'
    unfold applyOp
    unfold pairUnread
    dsimp only
    exact le_trans
      (List.Sublist.length_le (List.Sublist.filter _ (List.filter_sublist _)))
      (hinv r' b')

/-- Folding any well-formed trace preserves the invariant. -/
theorem foldl_preserves_inv (ops : List NotifOp) :
    ∀ db : DB, Inv db → (∀ op ∈ ops, opOK op) →
      Inv (ops.foldl applyOp db) := by
  induction ops with
  | nil =>
    intro db h _
    exact h
  | cons op ops ih =>
    intro db h hops
    exact ih _ (applyOp_preserves_inv db op (hops op (by simp)) h)
      (fun o ho => hops o (by simp [ho]))

/-- The invariant holds in every reachable store. -/
theorem runOps_inv (ops : List NotifOp) (hops : ∀ op ∈ ops, opOK op) :
    Inv (runOps ops) := by
  apply foldl_preserves_inv ops emptyDB _ hops
  intro r b
  simp [pairUnread, emptyDB]

/-- Found-branch of the upsert on a pair whose unread list is the singleton
`[ex]`: the list stays a singleton and the count grows by one. -/
theorem upsert_step_count (db : DB) (sender recv chatId content : String)
    (now : Nat) (ex : Notification)
    (hex : pairUnread db recv sender = [ex]) :
    pairUnread (create_consolidated_message_notification db sender recv chatId
        content now).1 recv sender
      = [{ ex with
           message := displayNameOf db sender ++ ": " ++ truncPreview content
           dataMessageCount := some (ex.dataMessageCount.getD 1 + 1)
           dataLatestContent := some content
           updated_at := now }] := by
  have hfound : upsertRead db sender recv = some ex := by
    unfold upsertRead
    rw [find?_eq_head?_filter]
    have hfe : db.notifications.filter (matchesUnreadFrom recv sender)
        = [ex] := hex
    rw [hfe]
    rfl
  rw [upsert_found_pairUnread db sender recv chatId content now ex hfound recv
    sender, hex]
  simp

/-- Insert-branch of the upsert on a pair with no unread notification: the
fresh document becomes the pair's unique unread row, with count 1. -/
theorem upsert_base_count (db : DB) (sender recv chatId content : String)
    (now : Nat)
    (hfresh : pairUnread db recv sender = []) :
    pairUnread (create_consolidated_message_notification db sender recv chatId
        content now).1 recv sender
      = [freshNotif db sender recv chatId content now] := by
  have hnone : upsertRead db sender recv = none := by
    unfold upsertRead
    rw [find?_eq_head?_filter]
    have hfe : db.notifications.filter (matchesUnreadFrom recv sender)
        = [] := hfresh
    rw [hfe]
    rfl
  unfold pairUnread
  rw [upsert_none_notifications db sender recv chatId content now hnone,
    List.filter_append]
  have hfe : db.notifications.filter (matchesUnreadFrom recv sender)
      = [] := hfresh
  rw [hfe]
  have hq : matchesUnreadFrom recv sender
      (freshNotif db sender recv chatId content now) = true := by
    rw [matches_new_doc]
    simp
  simp [List.filter_cons, hq]

/-- Folding further consolidator calls over a singleton unread pair keeps the
singleton and adds the number of calls to the count. -/
theorem applyUpserts_count (sender recv : String)
    (ms : List (String × String × Nat)) :
    ∀ (db : DB) (ex : Notification) (k : Nat),
      pairUnread db recv sender = [ex] → ex.dataMessageCount = some k →
      ∃ n, pairUnread (applyUpserts sender recv ms db) recv sender = [n] ∧
        n.dataMessageCount = some (k + ms.length) ∧ n.ntype = ex.ntype ∧
        n.is_read = ex.is_read ∧ n.user_id = ex.user_id ∧
        n.dataSenderId = ex.dataSenderId ∧ n.nid = ex.nid := by
  induction ms with
  | nil =>
    intro db ex k hex hk
    exact ⟨ex, hex, by simp [hk], rfl, rfl, rfl, rfl, rfl⟩
  | cons cm ms ih =>
    intro db ex k hex hk
    have hstep := upsert_step_count db sender recv cm.1 cm.2.1 cm.2.2 ex hex
    have hcnt : ({ ex with
        message := displayNameOf db sender ++ ": " ++ truncPreview cm.2.1
        dataMessageCount := some (ex.dataMessageCount.getD 1 + 1)
        dataLatestContent := some cm.2.1
        updated_at := cm.2.2 } : Notification).dataMessageCount
        = some (k + 1) := by
      simp [hk]
    obtain ⟨n, hn, hcount, h3, h4, h5, h6, h7⟩ := ih _ _ (k + 1) hstep hcnt
    refine ⟨n, hn, ?_, h3, h4, h5, h6, h7⟩
    rw [hcount]
    congr 1
    simp
    omega

/-- C2: at every store reachable through the repository's notification
operations, each (recipient, sender) pair owns at most one unread consolidated
notification; and K consecutive consolidator calls for a pair with no unread
notification leave exactly one unread `'new_message'` row for that pair whose
`message_count` is K — never K rows. -/
theorem consolidated_notification_invariant_and_count
    (ops : List NotifOp) (hops : ∀ op ∈ ops, opOK op) :
    (∀ r b, (pairUnread (runOps ops) r b).length ≤ 1) ∧
    (∀ (recv sender : String) (ms : List (String × String × Nat)), ms ≠ [] →
      pairUnread (runOps ops) recv sender = [] →
      ∃ n, pairUnread (applyUpserts sender recv ms (runOps ops)) recv sender
          = [n] ∧
        n.dataMessageCount = some ms.length ∧ n.ntype = "new_message" ∧
        n.is_read = false ∧ n.user_id = recv ∧
        n.dataSenderId = some sender) := by
  refine ⟨runOps_inv ops hops, ?_⟩
  intro recv sender ms hne hfresh
  cases ms with
  | nil => cases hne rfl
  | cons cm ms =>
    have hbase := upsert_base_count (runOps ops) sender recv cm.1 cm.2.1 cm.2.2
      hfresh
    have hfold : applyUpserts sender recv (cm :: ms) (runOps ops)
        = applyUpserts sender recv ms
            ((create_consolidated_message_notification (runOps ops) sender recv
              cm.1 cm.2.1 cm.2.2).1) := rfl
    obtain ⟨n, hn, hcount, h3, h4, h5, h6, h7⟩ :=
      applyUpserts_count sender recv ms _ _ 1 hbase rfl
    rw [hfold]
    refine ⟨n, hn, ?_, h3, h4, h5, h6⟩
    rw [hcount]
    congr 1
    simp [Nat.add_comm]

/-- C2 (witness): from the empty trace, two consecutive messages from `"s"` to
`"r"` leave one unread row with count 2. -/
theorem consolidated_notification_invariant_and_count_witness :
    (∀ r b, (pairUnread (runOps []) r b).length ≤ 1) ∧
    (∀ (recv sender : String) (ms : List (String × String × Nat)), ms ≠ [] →
      pairUnread (runOps []) recv sender = [] →
      ∃ n, pairUnread (applyUpserts sender recv ms (runOps [])) recv sender
          = [n] ∧
        n.dataMessageCount = some ms.length ∧ n.ntype = "new_message" ∧
        n.is_read = false ∧ n.user_id = recv ∧
        n.dataSenderId = some sender) :=
  consolidated_notification_invariant_and_count [] (by intro op h; cases h)

/-- A singleton filter result pins down every matching element. -/
theorem filter_eq_singleton_forall {α : Type} (q : α → Bool) (l : List α)
    (a : α) (h : l.filter q = [a]) :
    ∀ x ∈ l, q x = true → x = a := by
  induction l with
  | nil => intro x hx; cases hx
  | cons b t ih =>
    intro x hx hqx
    rw [List.filter_cons] at h
    by_cases hqb : q b = true
    · rw [if_pos hqb] at h
      have hb : b = a := (List.cons_eq_cons.1 h).1
      have ht : t.filter q = [] := (List.cons_eq_cons.1 h).2
      rcases List.mem_cons.1 hx with rfl | hxt
      · exact hb
      · exfalso
        have : x ∈ t.filter q := List.mem_filter.2 ⟨hxt, hqx⟩
        rw [ht] at this
        cases this
    · rw [if_neg hqb] at h
      rcases List.mem_cons.1 hx with rfl | hxt
      · exact absurd hqx hqb
      · exact ih h x hxt hqx

/-- C4: once a pair's unique unread consolidated notification is marked read by
`mark_notification_as_read`, it is excluded from future matching: the next
consolidator call for the same pair appends a fresh unread row with
`message_count` 1 under a fresh `_id`, and the read row survives with all its
fields unchanged (apart from the already-flipped `is_read`). -/
theorem read_notification_fresh_cycle
    (db : DB) (recv sender chatId content : String) (now : Nat)
    (ex : Notification)
    (hex : pairUnread db recv sender = [ex])
    (hnodup : (db.notifications.map (fun n => n.nid)).Nodup)
    (hbound : ∀ n ∈ db.notifications, n.nid < db.nextNotifId) :
    (({ ex with is_read := true } : Notification) ∈
      (create_consolidated_message_notification
        (mark_notification_as_read db ex.nid recv).1 sender recv chatId content
        now).1.notifications) ∧
    (∃ n, pairUnread (create_consolidated_message_notification
        (mark_notification_as_read db ex.nid recv).1 sender recv chatId content
        now).1 recv sender = [n] ∧
      n.dataMessageCount = some 1 ∧ n.ntype = "new_message" ∧
      n.is_read = false ∧ n.created_at = now ∧
      n.nid = (mark_notification_as_read db ex.nid recv).1.nextNotifId ∧
      n.nid ≠ ex.nid) := by
  have hexf : ex ∈ db.notifications.filter (matchesUnreadFrom recv sender) := by
    have hfe : db.notifications.filter (matchesUnreadFrom recv sender)
        = [ex] := hex
    rw [hfe]
    exact List.mem_singleton.2 rfl
  have hexmem : ex ∈ db.notifications := (List.mem_filter.1 hexf).1
  have hexq : matchesUnreadFrom recv sender ex = true :=
    (List.mem_filter.1 hexf).2
  have hexflds : ex.user_id = recv ∧ ex.is_read = false := by
    have hq := hexq
    simp only [matchesUnreadFrom, Bool.and_eq_true, beq_iff_eq,
      Bool.not_eq_eq_eq_not, Bool.not_true] at hq
    exact ⟨hq.1.1.1, by simpa using hq.1.2⟩
  have hpred : (fun n : Notification => n.nid == ex.nid && n.user_id == recv) ex
      = true := by
    simp [hexflds.1]
  -- the update_one of mark_notification_as_read finds exactly `ex`
  have hfindex : db.notifications.find?
      (fun n => n.nid == ex.nid && n.user_id == recv) = some ex := by
    cases hf : db.notifications.find?
        (fun n => n.nid == ex.nid && n.user_id == recv) with
    | none =>
      exfalso
      have := List.find?_eq_none.1 hf ex hexmem
      exact this hpred
    | some n0 =>
      have hq0 := List.find?_some hf
      have hmem0 := List.mem_of_find?_eq_some hf
      have hnid0 : n0.nid = ex.nid := by
        have := hq0
        simp only [Bool.and_eq_true, beq_iff_eq] at this
        exact this.1
      have : n0 = ex :=
        List.inj_on_of_nodup_map hnodup hmem0 hexmem (by simpa using hnid0)
      rw [this]
  set g : Notification → Notification := fun x =>
    if x.nid == ex.nid && x.user_id == recv then { x with is_read := true }
    else x with hg
  have hdb1 : (mark_notification_as_read db ex.nid recv).1
      = { db with notifications := db.notifications.map g } := by
    unfold mark_notification_as_read
    rw [hfindex]
    dsimp only
    rw [if_neg (by rw [hexflds.2]; exact Bool.false_ne_true)]
  have hfresh1 : pairUnread (mark_notification_as_read db ex.nid recv).1 recv
      sender = [] := by
    rw [hdb1]
    unfold pairUnread
    dsimp only
    apply List.filter_eq_nil_iff.2
    intro x hx
    obtain ⟨y, hy, rfl⟩ := List.mem_map.1 hx
    intro hqy
    have hqy' : matchesUnreadFrom recv sender y = true :=
      flip_pointwise recv sender
        (fun z => z.nid == ex.nid && z.user_id == recv) y hqy
    have hyex : y = ex := filter_eq_singleton_forall _ _ _ hex y hy hqy'
    subst hyex
    simp [hg, matchesUnreadFrom, hexflds.1] at hqy
  have hbase := upsert_base_count (mark_notification_as_read db ex.nid recv).1
    sender recv chatId content now hfresh1
  have hnone1 : upsertRead (mark_notification_as_read db ex.nid recv).1 sender
      recv = none := by
    unfold upsertRead
    rw [find?_eq_head?_filter]
    have hfe : (mark_notification_as_read db ex.nid recv).1.notifications.filter
        (matchesUnreadFrom recv sender) = [] := hfresh1
    rw [hfe]
    rfl
  have hnots2 := upsert_none_notifications
    (mark_notification_as_read db ex.nid recv).1 sender recv chatId content now
    hnone1
  constructor
  · rw [hnots2]
    apply List.mem_append_left
    rw [hdb1]
    dsimp only
    have : g ex = { ex with is_read := true } := by
      simp [hg, hexflds.1]
    rw [← this]
    exact List.mem_map_of_mem g hexmem
  · refine ⟨freshNotif (mark_notification_as_read db ex.nid recv).1 sender recv
      chatId content now, hbase, rfl, rfl, rfl, rfl, rfl, ?_⟩
    have hctr : (mark_notification_as_read db ex.nid recv).1.nextNotifId
        = db.nextNotifId := by
      rw [hdb1]
    show (freshNotif (mark_notification_as_read db ex.nid recv).1 sender recv
      chatId content now).nid ≠ ex.nid
    unfold freshNotif
    dsimp only
    rw [hctr]
    exact Ne.symm (Nat.ne_of_lt (hbound ex hexmem))

/-- The store after one message from `"a"` to `"b"`: one unread consolidated
notification. -/
def c4Db : DB :=
  (create_consolidated_message_notification aliceDB "a" "b" "c1" "hi" 1).1

/-- The unread consolidated notification present in `c4Db`. -/
def c4Ex : Notification :=
  { nid := 0, user_id := "b", ntype := "new_message", message := "Alice: hi",
    dataSenderId := some "a", dataChatId := some "c1",
    dataMessageCount := some 1, dataLatestContent := some "hi",
    dataReaderId := none, is_read := false, created_at := 1, updated_at := 1 }

/-- C4 (witness): mark the one unread notification read, send one more message;
a fresh unread row with count 1 appears and the read row survives unchanged. -/
theorem read_notification_fresh_cycle_witness :
    (({ c4Ex with is_read := true } : Notification) ∈
      (create_consolidated_message_notification
        (mark_notification_as_read c4Db c4Ex.nid "b").1 "a" "b" "c2" "yo"
        9).1.notifications) ∧
    (∃ n, pairUnread (create_consolidated_message_notification
        (mark_notification_as_read c4Db c4Ex.nid "b").1 "a" "b" "c2" "yo"
        9).1 "b" "a" = [n] ∧
      n.dataMessageCount = some 1 ∧ n.ntype = "new_message" ∧
      n.is_read = false ∧ n.created_at = 9 ∧
      n.nid = (mark_notification_as_read c4Db c4Ex.nid "b").1.nextNotifId ∧
      n.nid ≠ c4Ex.nid) :=
  read_notification_fresh_cycle c4Db "b" "a" "c2" "yo" 9 c4Ex (by decide)
    (by decide) (by decide)

/-! ## C1: exactly-once fan-out of `new_message` -/

/-- The emits accumulated by the notification loop: one `notification_updated`
per non-sender participant, in order. -/
theorem notifLoop_go (sender chatId content : String) (now : Nat)
    (parts : List String) :
    ∀ (db : DB) (acc : List Emit),
      (parts.foldl (notifStep sender chatId content now) (db, acc)).2
        = acc ++ (parts.filter (fun p => !(p == sender))).map
            (fun p => ⟨"notification_updated", .toRoom p true⟩) := by
  induction parts with
  | nil =>
    intro db acc
    simp
  | cons a l ih =>
    intro db acc
    rw [List.foldl_cons, List.filter_cons]
    by_cases h : (a == sender) = true
    · have hstep : notifStep sender chatId content now (db, acc) a
          = (db, acc) := by
        unfold notifStep
        rw [if_pos h]
      rw [hstep, ih, if_neg (by simp [h])]
    · have hstep : notifStep sender chatId content now (db, acc) a
          = ((create_consolidated_message_notification db sender a chatId
              content now).1,
             acc ++ [⟨"notification_updated", .toRoom a true⟩]) := by
        unfold notifStep
        rw [if_neg h]
      rw [hstep, ih, if_pos (by simp [h])]
      simp

/-- On the success path the handler's emit list is some `notification_updated`
emits followed by the two `new_message` emits: the room broadcast excluding the
sender, then the direct emit to the sender's own sid room. -/
theorem send_message_emits (db : DB) (sid u cid content : String) (now : Nat)
    (hcid : cid ≠ "") (hcontent : content ≠ "") :
    ∃ notifEmits : List Emit,
      (handle_send_message db sid (some u) (some cid) (some content) true
          now).2
        = notifEmits ++ [⟨"new_message", .toRoom cid false⟩,
                         ⟨"new_message", .toRoom sid true⟩] ∧
      ∀ e ∈ notifEmits, e.event = "notification_updated" := by
  unfold handle_send_message
  dsimp only
  rw [if_neg (by simp [hcid, hcontent])]
  dsimp only [create_message]
  rw [if_pos rfl]
  dsimp only
  cases hchat : get_chat
      { db with
        messages := db.messages ++
          [{ mid := db.nextMsgId, chat_id := cid, sender_id := u,
             content := content, read_by := [] }]
        nextMsgId := db.nextMsgId + 1 } cid u with
  | none =>
    refine ⟨[], by simp, by simp⟩
  | some chat =>
    refine ⟨(chat.participants.filter (fun p => !(p == u))).map
      (fun p => ⟨"notification_updated", .toRoom p true⟩), ?_, ?_⟩
    · unfold notifLoop
      rw [notifLoop_go]
      simp
    · intro e he
      obtain ⟨p, hp, rfl⟩ := List.mem_map.1 he
      rfl

/-- C1: when an authenticated user sends a non-empty message to a valid chat and
persistence succeeds, the `new_message` deliveries are: exactly one to each
connection joined to the chat room other than the sender's, exactly one to the
sending connection (via its own sid room) whether or not it joined the chat
room, none to anyone else — a total of N+1 for N other joined connections. -/
theorem send_message_fanout_exactly_once
    (db : DB) (st : SocketState) (sid u cid content : String) (now : Nat)
    (hcid : cid ≠ "") (hcontent : content ≠ "")
    (hsid : sid ∈ st.connectedSids)
    (hnodupC : st.connectedSids.Nodup)
    (hnodupR : st.rooms.Nodup)
    (hcidNotSid : cid ∉ st.connectedSids)
    (hsidNoRoom : ∀ p ∈ st.rooms, p.1 ≠ sid) :
    (deliveriesOf st sid
        (handle_send_message db sid (some u) (some cid) (some content) true
          now).2 "new_message").count sid = 1 ∧
    (∀ c ∈ joinedMembers st cid, c ≠ sid →
      (deliveriesOf st sid
        (handle_send_message db sid (some u) (some cid) (some content) true
          now).2 "new_message").count c = 1) ∧
    (∀ c, c ∉ joinedMembers st cid → c ≠ sid →
      (deliveriesOf st sid
        (handle_send_message db sid (some u) (some cid) (some content) true
          now).2 "new_message").count c = 0) ∧
    (deliveriesOf st sid
        (handle_send_message db sid (some u) (some cid) (some content) true
          now).2 "new_message").length
      = ((joinedMembers st cid).filter (fun c => c != sid)).length + 1 := by
  obtain ⟨notifEmits, hout, hnotif⟩ :=
    send_message_emits db sid u cid content now hcid hcontent
  -- the event filter keeps exactly the two new_message emits
  have hfilter : ((handle_send_message db sid (some u) (some cid)
      (some content) true now).2.filter (fun e => e.event == "new_message"))
      = [⟨"new_message", .toRoom cid false⟩,
         ⟨"new_message", .toRoom sid true⟩] := by
    rw [hout, List.filter_append]
    have h1 : notifEmits.filter (fun e => e.event == "new_message") = [] := by
      apply List.filter_eq_nil_iff.2
      intro e he
      rw [hnotif e he]
      decide
    rw [h1]
    rfl
  -- the two delivery lists
  have hroomcid : roomSids st cid = joinedMembers st cid := by
    unfold roomSids joinedMembers
    have h0 : st.connectedSids.filter (fun s => s == cid) = [] := by
      apply List.filter_eq_nil_iff.2
      intro s hs
      simp only [beq_iff_eq]
      rintro rfl
      exact hcidNotSid hs
    rw [h0]
    rfl
  have hroomsid : roomSids st sid = [sid] := by
    unfold roomSids
    have h0 : st.connectedSids.filter (fun s => s == sid) = [sid] :=
      filter_beq_of_nodup st.connectedSids hnodupC sid hsid
    have h1 : st.rooms.filter (fun p => p.1 == sid) = [] := by
      apply List.filter_eq_nil_iff.2
      intro p hp
      simp only [beq_iff_eq]
      exact hsidNoRoom p hp
    rw [h0, h1]
    rfl
  have hdl : deliveriesOf st sid
      (handle_send_message db sid (some u) (some cid) (some content) true
        now).2 "new_message"
      = (joinedMembers st cid).filter (fun c => c != sid) ++ [sid] := by
    unfold deliveriesOf
    rw [hfilter]
    show deliveries st sid ⟨"new_message", .toRoom cid false⟩ ++
      (deliveries st sid ⟨"new_message", .toRoom sid true⟩ ++ []) = _
    unfold deliveries
    dsimp only
    rw [if_neg (by simp), if_pos rfl, hroomcid, hroomsid]
    simp
  -- the joined members of a room are pairwise distinct connections
  have hmembers : (joinedMembers st cid).Nodup := by
    unfold joinedMembers
    apply List.Nodup.map_on
    · intro x hx y hy hxy
      have hx1 : x.1 = cid := by
        simpa using (List.mem_filter.1 hx).2
      have hy1 : y.1 = cid := by
        simpa using (List.mem_filter.1 hy).2
      exact Prod.ext (hx1.trans hy1.symm) hxy
    · exact hnodupR.filter _
  rw [hdl]
  refine ⟨?_, ?_, ?_, ?_⟩
  · rw [List.count_append]
    have h0 : ((joinedMembers st cid).filter (fun c => c != sid)).count sid
        = 0 := by
      apply List.count_eq_zero.2
      intro hmem
      have := (List.mem_filter.1 hmem).2
      simp at this
    rw [h0]
    simp
  · intro c hc hcne
    rw [List.count_append]
    have h1 : ((joinedMembers st cid).filter (fun c => c != sid)).count c
        = (joinedMembers st cid).count c :=
      List.count_filter (by simpa using hcne)
    rw [h1, List.count_eq_one_of_mem hmembers hc]
    have h2 : List.count c [sid] = 0 := by
      apply List.count_eq_zero.2
      simp [hcne]
    rw [h2]
  · intro c hc hcne
    rw [List.count_append]
    have h1 : ((joinedMembers st cid).filter (fun c => c != sid)).count c
        = 0 := by
      apply List.count_eq_zero.2
      intro hmem
      exact hc (List.mem_filter.1 hmem).1
    have h2 : List.count c [sid] = 0 := by
      apply List.count_eq_zero.2
      simp [hcne]
    rw [h1, h2]
  · rw [List.length_append]
    rfl

/-- C1 (witness): sender `"s1"` (user `"a"`, not joined to the room), two other
connections `"s2"`, `"s3"` joined to chat `"c1"`: three deliveries, one each. -/
theorem send_message_fanout_exactly_once_witness :
    (deliveriesOf ⟨["s1", "s2", "s3"],
        [("s1", "a"), ("s2", "b"), ("s3", "b")],
        [("c1", "s2"), ("c1", "s3")]⟩ "s1"
      (handle_send_message chatDB "s1" (some "a") (some "c1") (some "hi") true
        7).2 "new_message").count "s1" = 1 ∧
    (∀ c ∈ joinedMembers ⟨["s1", "s2", "s3"],
        [("s1", "a"), ("s2", "b"), ("s3", "b")],
        [("c1", "s2"), ("c1", "s3")]⟩ "c1", c ≠ "s1" →
      (deliveriesOf ⟨["s1", "s2", "s3"],
          [("s1", "a"), ("s2", "b"), ("s3", "b")],
          [("c1", "s2"), ("c1", "s3")]⟩ "s1"
        (handle_send_message chatDB "s1" (some "a") (some "c1") (some "hi")
          true 7).2 "new_message").count c = 1) ∧
    (∀ c, c ∉ joinedMembers ⟨["s1", "s2", "s3"],
        [("s1", "a"), ("s2", "b"), ("s3", "b")],
        [("c1", "s2"), ("c1", "s3")]⟩ "c1" → c ≠ "s1" →
      (deliveriesOf ⟨["s1", "s2", "s3"],
          [("s1", "a"), ("s2", "b"), ("s3", "b")],
          [("c1", "s2"), ("c1", "s3")]⟩ "s1"
        (handle_send_message chatDB "s1" (some "a") (some "c1") (some "hi")
          true 7).2 "new_message").count c = 0) ∧
    (deliveriesOf ⟨["s1", "s2", "s3"],
        [("s1", "a"), ("s2", "b"), ("s3", "b")],
        [("c1", "s2"), ("c1", "s3")]⟩ "s1"
      (handle_send_message chatDB "s1" (some "a") (some "c1") (some "hi") true
        7).2 "new_message").length
      = ((joinedMembers ⟨["s1", "s2", "s3"],
          [("s1", "a"), ("s2", "b"), ("s3", "b")],
          [("c1", "s2"), ("c1", "s3")]⟩ "c1").filter
            (fun c => c != "s1")).length + 1 :=
  send_message_fanout_exactly_once chatDB
    ⟨["s1", "s2", "s3"], [("s1", "a"), ("s2", "b"), ("s3", "b")],
     [("c1", "s2"), ("c1", "s3")]⟩ "s1" "a" "c1" "hi" 7
    (by decide) (by decide) (by decide) (by decide) (by decide) (by decide)
    (by decide)

end HangSpace
